import Mathlib

/-!
Verification of the session-scoped relay and dispatch layer of the
`discord-bot` repository (`src/discord_mcp/game.py` and
`src/discord_mcp/server.py`).

The development shallowly embeds the repository's Python code:

* `HangmanGame` mirrors `game.py` (the Word-Guess Session): Python sets are
  lists with set-semantics insertion (`setAdd`), Python's arbitrary-precision
  `int` is `Int`, and `random.choice(WORDS)` is a parameter carrying the
  chosen word.
* The Event Router (`on_message`), the `hangman` command and the Session
  Registry (`state.active_hangman_games`, a Python dict embedded as an
  association list with dict semantics) mirror `server.py` lines 55-158;
  the registry value pairs a game with the id of its rendered status message.
* The Relay Channel is the nullable `state.websocket_client` handle mutated
  by `websocket_handler` (`server.py` lines 770-780).
* The Tool Dispatcher embeds `call_tool` (`server.py` lines 499-752) over an
  environment `Env` of external chat-platform calls; every external call made
  is recorded in a trace so that "performs no external action" is a statement
  about the trace.

All non-ASCII string constants are copied codepoint-for-codepoint from the
source files (which contain mojibake text; the embedding reproduces it
exactly, via escape sequences).
-/

namespace DiscordBot

/-! ### Python string helpers (semantics of the library calls the source uses) -/

/-- Python `s.ljust(width)`: pad on the right with spaces to `width` characters
(no-op when already at least that long). -/
def pyLjust (s : String) (width : Nat) : String :=
  s ++ String.mk (List.replicate (width - s.length) ' ')

/-- Python `s * n` for `n : int` (empty for non-positive `n`). -/
def pyStrMul (s : String) (n : Int) : String :=
  String.join (List.replicate n.toNat s)

/-- Python `s.lower()`, character-wise (the source only lowercases ASCII text). -/
def pyLower (s : String) : String := String.mk (s.toList.map Char.toLower)

/-- Python `s.strip()`: remove leading and trailing whitespace. -/
def pyStrip (s : String) : String :=
  String.mk (((s.toList.dropWhile Char.isWhitespace).reverse.dropWhile
    Char.isWhitespace).reverse)

/-- Python `s.startswith(pre)`. -/
def pyStartswith (s pre : String) : Bool := List.isPrefixOf pre.toList s.toList

/-- Insert a character into a sorted list of characters, keeping it sorted. -/
def insertSorted (c : Char) : List Char → List Char
  | [] => [c]
  | x :: xs => if c ≤ x then c :: x :: xs else x :: insertSorted c xs

/-- Python `sorted(set_of_chars)`: the set's members in ascending order. -/
def pySorted (l : List Char) : List Char := l.foldr insertSorted []

/-- Python `set.add`: insert a member only if it is not already present
(a list with set semantics; membership is what matters). -/
def setAdd (l : List Char) (c : Char) : List Char :=
  if c ∈ l then l else l ++ [c]

/-! ### `game.py` — the Word-Guess Session -/

/-- State of `HangmanGame` (`game.py` lines 104-108): the secret word, the two
guess sets and the remaining-attempts counter (a Python `int`, hence `Int`:
the code itself puts no lower bound on it). -/
structure HangmanGame where
  word : String
  guesses_correct : List Char
  guesses_incorrect : List Char
  attempts_left : Int
  deriving Repr, DecidableEq

namespace HangmanGame

/-- `game.py` lines 8-21: the fixed word list `random.choice` draws from. -/
def WORDS : List String := [
  "alligator", "alpaca", "badger", "beaver", "bison", "bobcat",
  "butterfly", "camel", "caterpillar", "cheetah", "chicken", "chimpanzee",
  "cobra", "condor", "cougar", "crocodile", "dolphin", "donkey",
  "eagle", "elephant", "falcon", "ferret", "flamingo", "giraffe",
  "gorilla", "horse", "hyena", "iguana", "jaguar", "koala",
  "lemur", "leopard", "lion", "lizard", "llama", "lobster",
  "monkey", "octopus", "otter", "panda", "panther", "parrot",
  "pelican", "penguin", "puffin", "python", "rabbit", "raven",
  "rhinoceros", "scorpion", "shark", "sheep", "skunk", "sloth",
  "snake", "spider", "squid", "squirrel", "tiger", "turtle",
  "vulture", "weasel", "whale", "wolf", "wombat", "zebra"
]

/-- `game.py` lines 24-102: the seven failure-art frames, copied
codepoint-for-codepoint from the source file. -/
def HANGMAN_PICS : List String := [
  "\n        â˜€ï¸\n          +---+\n          |   |\n              |\n              |\n              |\n              |\n         =========\n        ",
  "\n        â˜€ï¸\n          +---+\n          |   |\n          ğŸ˜  |\n              |\n              |\n              |\n         =========\n        ",
  "\n        â˜€ï¸\n          +---+\n          |   |\n          ğŸ˜  |\n          |   |\n              |\n              |\n         =========\n        ",
  "\n        â˜€ï¸\n          +---+\n          |   |\n          ğŸ˜  |\n         /|   |\n              |\n              |\n         =========\n        ",
  "\n        â˜€ï¸\n          +---+\n          |   |\n          ğŸ˜  |\n         /|\\  |\n              |\n              |\n         =========\n        ",
  "\n        â˜€ï¸\n          +---+\n          |   |\n          ğŸ˜  |\n         /|\\  |\n         /    |\n              |\n         =========\n        ",
  "\n        â˜€ï¸\n          +---+\n          |   |\n          ğŸ’€  |\n         /|\\  |\n         / \\  |\n              |\n         =========\n        "]

/-- `HangmanGame.__init__` (`game.py` lines 104-108). `random.choice(WORDS)`
is modelled by passing the chosen word in; theorems that depend on the word
being drawn from the list carry a `word ∈ WORDS` hypothesis. -/
def init (word : String) : HangmanGame :=
  { word := pyLower word
    guesses_correct := []
    guesses_incorrect := []
    attempts_left := (HANGMAN_PICS.length : Int) - 1 }

/-- `HangmanGame.guess` (`game.py` lines 110-120). The caller passes a single
character (the Event Router validates this); the returned `Bool` is the
source's hit/miss return value. -/
def guessFn (g : HangmanGame) (letter : Char) : HangmanGame × Bool :=
  let letter := letter.toLower
  if letter ∈ g.word.toList then
    ({ g with guesses_correct := setAdd g.guesses_correct letter }, true)
  else if letter ∉ g.guesses_incorrect then
    ({ g with guesses_incorrect := setAdd g.guesses_incorrect letter
              attempts_left := g.attempts_left - 1 }, false)
  else
    (g, false)

/-- `HangmanGame.is_won` (`game.py` lines 122-124): `set(word) <= guesses_correct`. -/
def is_won (g : HangmanGame) : Bool :=
  g.word.toList.all (fun c => g.guesses_correct.contains c)

/-- `HangmanGame.is_lost` (`game.py` lines 126-128): `attempts_left <= 0`. -/
def is_lost (g : HangmanGame) : Bool :=
  decide (g.attempts_left ≤ 0)

/-- `HangmanGame.get_display_word` (`game.py` lines 130-132). -/
def get_display_word (g : HangmanGame) : String :=
  String.intercalate " " (g.word.toList.map (fun letter =>
    if g.guesses_correct.contains letter then String.singleton letter else "_"))

/-- `HangmanGame.get_game_state_message` (`game.py` lines 134-173), the pure
status renderer; every string constant is copied codepoint-for-codepoint
from the source. -/
def get_game_state_message (g : HangmanGame) : String :=
  let display_word := g.get_display_word
  let hangman_art_index : Int := (HANGMAN_PICS.length : Int) - 1 - g.attempts_left
  let hangman_art_index : Int := max 0 (min hangman_art_index ((HANGMAN_PICS.length : Int) - 1))
  let hangman_art_lines := ((HANGMAN_PICS.getD hangman_art_index.toNat "").trim).splitOn "\n"
  let padded_art_lines := hangman_art_lines.map (fun line =>
    "\u00e2\u2022\u2018 " ++ pyLjust line 29 ++ " \u00e2\u2022\u2018")
  let lives_display := pyStrMul "\u00e2\u00a4\u00ef\u00b8" g.attempts_left ++
    pyStrMul "\u011f\u0178\u2013\u00a4" ((HANGMAN_PICS.length : Int) - 1 - g.attempts_left)
  let incorrect_guesses_str :=
    String.intercalate " " ((pySorted g.guesses_incorrect).map String.singleton)
  let message_lines : List String :=
    ["\u00e2\u2022\u201d\u00e2\u2022\u00e2\u2022\u00e2\u2022\u00e2\u2022\u00e2\u2022\u00e2\u2022\u00e2\u2022\u00e2\u2022\u00e2\u2022\u00e2\u2022\u00e2\u2022\u00e2\u2022\u00e2\u2022\u00e2\u2022\u00e2\u2022\u00e2\u2022\u00e2\u2022\u00e2\u2022\u00e2\u2022\u00e2\u2022\u00e2\u2022\u00e2\u2022\u00e2\u2022\u00e2\u2022\u00e2\u2022\u00e2\u2022\u00e2\u2022\u00e2\u2022\u00e2\u2022\u00e2\u2022\u00e2\u2022\u00e2\u2022\u2014",
     "\u00e2\u2022\u2018         H A N G M A N         \u00e2\u2022\u2018",
     "\u00e2\u2022\u00a0\u00e2\u2022\u00e2\u2022\u00e2\u2022\u00e2\u2022\u00e2\u2022\u00e2\u2022\u00e2\u2022\u00e2\u2022\u00e2\u2022\u00e2\u2022\u00e2\u2022\u00e2\u2022\u00e2\u2022\u00e2\u2022\u00e2\u2022\u00e2\u2022\u00e2\u2022\u00e2\u2022\u00e2\u2022\u00e2\u2022\u00e2\u2022\u00e2\u2022\u00e2\u2022\u00e2\u2022\u00e2\u2022\u00e2\u2022\u00e2\u2022\u00e2\u2022\u00e2\u2022\u00e2\u2022\u00e2\u2022\u00e2\u2022\u00a3",
     "\u00e2\u2022\u2018                               \u00e2\u2022\u2018"]
    ++ padded_art_lines ++
    ["\u00e2\u2022\u2018                               \u00e2\u2022\u2018",
     "\u00e2\u2022\u00a0\u00e2\u2022\u00e2\u2022\u00e2\u2022\u00e2\u2022\u00e2\u2022\u00e2\u2022\u00e2\u2022\u00e2\u2022\u00e2\u2022\u00e2\u2022\u00e2\u2022\u00e2\u2022\u00e2\u2022\u00e2\u2022\u00e2\u2022\u00e2\u2022\u00e2\u2022\u00e2\u2022\u00e2\u2022\u00e2\u2022\u00e2\u2022\u00e2\u2022\u00e2\u2022\u00e2\u2022\u00e2\u2022\u00e2\u2022\u00e2\u2022\u00e2\u2022\u00e2\u2022\u00e2\u2022\u00e2\u2022\u00e2\u2022\u00a3",
     "\u00e2\u2022\u2018  Word:  " ++ pyLjust display_word 21 ++ " \u00e2\u2022\u2018",
     "\u00e2\u2022\u2018                               \u00e2\u2022\u2018",
     "\u00e2\u2022\u2018  Incorrect: " ++ pyLjust incorrect_guesses_str 17 ++ " \u00e2\u2022\u2018",
     "\u00e2\u2022\u2018                               \u00e2\u2022\u2018",
     "\u00e2\u2022\u2018  Lives: " ++ pyLjust lives_display 20 ++ " \u00e2\u2022\u2018",
     "\u00e2\u2022\u0161\u00e2\u2022\u00e2\u2022\u00e2\u2022\u00e2\u2022\u00e2\u2022\u00e2\u2022\u00e2\u2022\u00e2\u2022\u00e2\u2022\u00e2\u2022\u00e2\u2022\u00e2\u2022\u00e2\u2022\u00e2\u2022\u00e2\u2022\u00e2\u2022\u00e2\u2022\u00e2\u2022\u00e2\u2022\u00e2\u2022\u00e2\u2022\u00e2\u2022\u00e2\u2022\u00e2\u2022\u00e2\u2022\u00e2\u2022\u00e2\u2022\u00e2\u2022\u00e2\u2022\u00e2\u2022\u00e2\u2022\u00e2\u2022"]
  let message := "```\n" ++ String.intercalate "\n" message_lines ++ "\n```"
  if g.is_won then
    message ++ "\n**Congratulations! You won! The word was `" ++ g.word ++ "`.**"
  else if g.is_lost then
    message ++ "\n**Game Over! You lost. The word was `" ++ g.word ++ "`.**"
  else
    message ++ "\nType a letter to guess."

/-- A sequence of `guess` calls, applied left to right. -/
def play (g : HangmanGame) (gs : List Char) : HangmanGame :=
  gs.foldl (fun g c => (guessFn g c).1) g

end HangmanGame

/-! ### `server.py` — Session Registry, Event Router, Relay Channel -/

/-- Python dict assignment `m[k] = v`: replace the entry if the key is present,
append otherwise. -/
def dictSet {α : Type} (m : List (String × α)) (k : String) (v : α) :
    List (String × α) :=
  if (m.lookup k).isSome then m.map (fun p => if p.1 = k then (k, v) else p)
  else m ++ [(k, v)]

/-- Python `del m[k]`: drop the entry with that key. -/
def dictDel {α : Type} (m : List (String × α)) (k : String) : List (String × α) :=
  m.filter (fun p => p.1 ≠ k)

/-- The dict invariant: no two entries share a key. -/
def NodupKeys {α : Type} (m : List (String × α)) : Prop := (m.map Prod.fst).Nodup

/-- The Session Registry `state.active_hangman_games` (`server.py` line 60):
room id → (game instance, id of the rendered status message). -/
abbrev Registry := List (String × (HangmanGame × Nat))

/-- Process-wide state (`server.py` class BotState, lines 56-62): the nullable
relay connection handle and the session registry. (`websocket_server`, the
listening endpoint handle, plays no part in the claims.) -/
structure BState where
  websocket_client : Option Nat
  active_hangman_games : Registry
  deriving Repr, DecidableEq

/-- An inbound chat event (the fields of `discord.Message` the router reads). -/
structure InMessage where
  id : Nat
  author_bot : Bool
  author_name : String
  author_display_name : String
  channel_id : String
  content : String
  deriving Repr, DecidableEq

/-- The JSON payload forwarded over the relay socket (`server.py` lines 149-154). -/
structure WsPayload where
  type : String
  content : String
  channelId : String
  thinkingMessageId : String
  deriving Repr, DecidableEq

/-- The externally visible actions a handler performs, in order: publishing,
editing and deleting chat messages, and sending a relay payload.
`messageDelete` covers both the best-effort deletion of a guess message
(`server.py` line 123) and the discarding of a placeholder (line 158). -/
inductive Effect where
  | channelSend (channel_id : String) (content : String) (message_id : Nat)
  | messageEdit (message_id : Nat) (content : String)
  | messageDelete (message_id : Nat)
  | wsSend (payload : WsPayload)
  deriving Repr, DecidableEq

/-- `commands.Bot(command_prefix="!")` (`server.py` line 50). -/
def command_prefix : String := "!"

/-- Python `str.isalpha`: non-empty and every character alphabetic (the
source only ever applies it to ASCII input; `Char.isAlpha` models it). -/
def pyIsAlpha (s : String) : Bool :=
  !s.isEmpty && s.toList.all Char.isAlpha

/-- The non-deterministic inputs of one router step: the word `random.choice`
would draw if a game is created, and the id the chat platform assigns to the
next message the bot publishes (at most one message is published per step). -/
structure Fresh where
  word : String
  msgId : Nat
  deriving Repr, DecidableEq

/-- The `hangman` command handler (`server.py` lines 75-97). `args` are the
whitespace-split tokens after the command name; with no tokens the
sub-command defaults to `"start"` (line 79). -/
def hangman (st : BState) (channel_id : String) (args : List String)
    (fresh : Fresh) : BState × List Effect :=
  let command := (args.head?.map pyLower).getD "start"
  if command = "start" then
    if (st.active_hangman_games.lookup channel_id).isSome then
      (st, [.channelSend channel_id
        "A game is already in progress in this channel! Use `!hangman stop` to end it."
        fresh.msgId])
    else
      let game := HangmanGame.init fresh.word
      ({ st with active_hangman_games :=
          dictSet st.active_hangman_games channel_id (game, fresh.msgId) },
       [.channelSend channel_id game.get_game_state_message fresh.msgId])
  else if command = "stop" then
    if (st.active_hangman_games.lookup channel_id).isSome then
      ({ st with active_hangman_games := dictDel st.active_hangman_games channel_id },
       [.channelSend channel_id "Hangman game stopped." fresh.msgId])
    else
      (st, [.channelSend channel_id "No active game to stop in this channel." fresh.msgId])
  else
    (st, [])

/-- `bot.process_commands(message)` (`server.py` line 106): dispatch a message
whose text starts with the command prefix to the registered command handler
(`hangman` is the only one); anything else is a no-op. -/
def process_commands (st : BState) (msg : InMessage) (fresh : Fresh) :
    BState × List Effect :=
  if pyStartswith msg.content command_prefix then
    match (msg.content.drop command_prefix.length).splitOn " " with
    | cmd :: args =>
      if cmd = "hangman" then
        hangman st msg.channel_id (args.filter (fun a => a ≠ "")) fresh
      else (st, [])
    | [] => (st, [])
  else (st, [])

/-- `server.py` line 133: the placeholder "working" status text. -/
def THINKING : String := ">🤔Thinking..."

/-- `server.py` lines 139-154: the formatted content and the JSON payload the
general-message path forwards over the relay, embedding the room id, the
message text, the sender's display name and the placeholder's id. -/
def forward_payload (msg : InMessage) (thinking_id : Nat) : WsPayload :=
  { type := "message"
    content :=
      "MESSAGE FROM DISCORD_USER '" ++ msg.author_display_name ++ "' " ++
      "in DISCORD_CHANNEL '" ++ msg.channel_id ++ "' " ++
      "MSG: \"" ++ msg.content ++ "\"\n\n" ++
      "IMPORTANT: You must communicate your response by using the 'edit_message' tool " ++
      "on the placeholder message with ID: " ++ toString thinking_id ++ ". " ++
      "Do not use 'ask_followup_question' or 'attempt_completion'. " ++
      "The user is on Discord and will only see the edited message."
    channelId := msg.channel_id
    thinkingMessageId := toString thinking_id }

/-- The Event Router `on_message` (`server.py` lines 99-158). Returns the new
process state and the handler's external actions in order. -/
def on_message (target_channel_id : String) (st : BState) (msg : InMessage)
    (fresh : Fresh) : BState × List Effect :=
  -- lines 101-103: ignore the bot's own messages and other channels
  if msg.author_bot || msg.channel_id ≠ target_channel_id then (st, [])
  else
    -- line 106: process commands first
    let (st1, eff1) := process_commands st msg fresh
    let channel_id := msg.channel_id
    -- lines 109-126: the guess branch, taken whenever a session is active and
    -- the text does not start with the command prefix
    if (st1.active_hangman_games.lookup channel_id).isSome
        && !(pyStartswith msg.content command_prefix) then
      match st1.active_hangman_games.lookup channel_id with
      | some (game, game_message) =>
        let guess := pyLower (pyStrip msg.content)
        let (st2, eff2) :=
          if guess.length = 1 && pyIsAlpha guess then
            -- line 115: game.guess mutates the game held by the registry entry
            let g' := (HangmanGame.guessFn game (guess.toList.headD ' ')).1
            let registry := dictSet st1.active_hangman_games channel_id (g', game_message)
            -- lines 118-119: a terminal session is removed at once
            let registry := if g'.is_won || g'.is_lost
              then dictDel registry channel_id else registry
            ({ st1 with active_hangman_games := registry },
             [Effect.messageEdit game_message g'.get_game_state_message])
          else (st1, [])
        -- lines 121-125: delete the originating message (best-effort; a
        -- Forbidden failure is logged, which changes no state)
        (st2, eff1 ++ eff2 ++ [Effect.messageDelete msg.id])
      | none => (st1, eff1)
    -- lines 128-158: the general-message path
    else if !(pyStartswith msg.content command_prefix) then
      let thinking_id := fresh.msgId
      let sendThinking := Effect.channelSend msg.channel_id THINKING thinking_id
      match st1.websocket_client with
      | some _ =>
        -- lines 139-154: forward the structured payload
        (st1, eff1 ++ [sendThinking, Effect.wsSend (forward_payload msg thinking_id)])
      | none =>
        -- line 158: no live connection — discard the placeholder
        (st1, eff1 ++ [sendThinking, Effect.messageDelete thinking_id])
    else (st1, eff1)

/-! ### Relay Channel state (`server.py` lines 769-788) -/

/-- A connection lifecycle event at the relay endpoint. -/
inductive RelayEvent where
  | accept (conn : Nat)
  | disconnect (conn : Nat)
  deriving Repr, DecidableEq

/-- `websocket_handler` (`server.py` lines 770-780): on entry the new
connection overwrites the stored handle (line 771); when a handler's wait
ends, its `finally` block clears the handle unconditionally (line 780) —
whether or not the stored handle still is that handler's connection. -/
def relayStep (_s : Option Nat) : RelayEvent → Option Nat
  | .accept c => some c
  | .disconnect _ => none

/-- The handle after a sequence of lifecycle events, from the initial `None`. -/
def relayRun (evs : List RelayEvent) : Option Nat :=
  evs.foldl relayStep none

/-- The failure a caller of `send` observes with no live connection. -/
inductive RelayError where
  | notConnected
  deriving Repr, DecidableEq

/-- Send-if-connected (the check `if state.websocket_client:` guarding
`state.websocket_client.send(...)`, `server.py` lines 135/155-158; the spec's
Relay Channel `send`): with no live handle the caller gets NotConnected as a
value — no exception — and otherwise the payload goes to the handle. -/
def relay_send (client : Option Nat) (payload : WsPayload) :
    Except RelayError (Nat × WsPayload) :=
  match client with
  | none => .error .notConnected
  | some c => .ok (c, payload)

/-- Following the spec's words only ("the handle always refers to the most
recently accepted connection that has not yet disconnected"): the latest
accepted connection, dropped only when that same connection disconnects.
Stated for comparison against `relayRun`. -/
def liveLatest (evs : List RelayEvent) : Option Nat :=
  evs.foldl (fun acc ev => match ev with
    | .accept c => some c
    | .disconnect c => if acc = some c then none else acc) none

/-! ### `server.py` — the Tool Dispatcher (`call_tool`, lines 499-752)

The handlers run against an environment `Env` of external chat-platform
calls; each call made is recorded in a trace (`ExtAction`), so that "performs
no external action" is the statement that the trace is empty. A Python
exception is an `Except.error` carrying the exception. -/

/-- The Python exceptions the dispatcher can raise or see from the chat
platform; `str` renders each the way Python's `str(e)` does. -/
inductive PyErr where
  | runtimeError (msg : String)
  | valueError (msg : String)
  | keyError (key : String)
  | typeError (msg : String)
  | attributeError (msg : String)
  | discordNotFound (msg : String)
  | discordForbidden (msg : String)
  | httpError (msg : String)
  deriving Repr, DecidableEq

/-- Python `str(e)` (for `KeyError` that is the `repr` of the key). -/
def PyErr.str : PyErr → String
  | .runtimeError m => m
  | .valueError m => m
  | .keyError k => "'" ++ k ++ "'"
  | .typeError m => m
  | .attributeError m => m
  | .discordNotFound m => m
  | .discordForbidden m => m
  | .httpError m => m

/-- `mcp.types.TextContent` (always constructed with `type="text"`). -/
structure TextContent where
  type : String := "text"
  text : String
  deriving Repr, DecidableEq

/-- A JSON value of the tool-call argument bag. -/
inductive JVal where
  | str (s : String)
  | num (n : Int)
  | arr (xs : List String)
  | boolean (b : Bool)
  deriving Repr, DecidableEq

/-- The argument bag `arguments` of a tool call. -/
abbrev Args := List (String × JVal)

/-- Python `arguments[k]`: KeyError when the key is absent. -/
def dictGetItem (args : Args) (k : String) : Except PyErr JVal :=
  match args.lookup k with
  | some v => Except.ok v
  | none => Except.error (.keyError k)

/-- Python `arguments.get(k, default)`. -/
def dictGet (args : Args) (k : String) (default : JVal) : JVal :=
  (args.lookup k).getD default

/-- Python `int(x)` on a JSON value. -/
def pyInt : JVal → Except PyErr Int
  | .num n => Except.ok n
  | .str s =>
    match s.toInt? with
    | some n => Except.ok n
    | none => Except.error (.valueError
        ("invalid literal for int() with base 10: '" ++ s ++ "'"))
  | .boolean b => Except.ok (if b then 1 else 0)
  | .arr _ => Except.error (.typeError
      "int() argument must be a string, a bytes-like object or a real number, not 'list'")

/-- Python `str(x)` on a JSON value. -/
def pyStr : JVal → String
  | .str s => s
  | .num n => toString n
  | .boolean b => if b then "True" else "False"
  | .arr xs => "[" ++ String.intercalate ", " (xs.map (fun x => "'" ++ x ++ "'")) ++ "]"

/-- Python `x > 0` on a JSON value (TypeError on a non-number, as in Python 3). -/
def pyGtZero : JVal → Except PyErr Bool
  | .num n => Except.ok (decide (0 < n))
  | .boolean b => Except.ok b
  | .str _ => Except.error (.typeError
      "'>' not supported between instances of 'str' and 'int'")
  | .arr _ => Except.error (.typeError
      "'>' not supported between instances of 'list' and 'int'")

/-- Python iteration over `arguments["emojis"]`: a JSON array iterates its
items, a string its characters; a number is not iterable. -/
def pyIterStrs : JVal → Except PyErr (List String)
  | .arr xs => Except.ok xs
  | .str s => Except.ok (s.toList.map String.singleton)
  | .num _ => Except.error (.typeError "'int' object is not iterable")
  | .boolean _ => Except.error (.typeError "'bool' object is not iterable")

/-- Python `str` of an optional value (`None` prints as "None"). -/
def optStr : Option String → String
  | some s => s
  | none => "None"

/-! Views of the external chat-platform objects: exactly the fields the
handlers read. -/

structure DReaction where
  emoji : String
  count : Int
  deriving Repr, DecidableEq

structure DMessage where
  id : Int
  author : String
  author_is_member : Bool
  content : String
  created_at : String
  reactions : List DReaction
  deriving Repr, DecidableEq

structure DUser where
  id : Int
  name : String
  discriminator : String
  bot : Bool
  created_at : String
  deriving Repr, DecidableEq

structure DChannel where
  id : Int
  name : String
  type : String
  deriving Repr, DecidableEq

structure DMember where
  id : Int
  name : String
  nick : String
  joined_at : Option String
  roles : List Int
  deriving Repr, DecidableEq

structure DRole where
  id : Int
  name : String
  deriving Repr, DecidableEq

structure DGuild where
  id : Int
  name : String
  owner_id : Int
  member_count : Int
  created_at : String
  description : Option String
  premium_tier : Int
  explicit_content_filter : String
  channels : List DChannel
  deriving Repr, DecidableEq

/-- One external action attempted by a handler (the remote calls of
`call_tool`, in the order of their arguments at the call site). -/
inductive ExtAction where
  | fetch_channel (channel_id : Int)
  | channel_send (channel_id : Int) (content : String)
  | channel_history (channel_id : Int) (limit : Int)
  | fetch_user (user_id : Int)
  | fetch_message (channel_id : Int) (message_id : Int)
  | message_delete (channel_id : Int) (message_id : Int) (reason : String)
  | fetch_guild (server_id : Int)
  | get_guild (server_id : Int)
  | fetch_members (server_id : Int) (limit : Int)
  | fetch_member (server_id : Int) (user_id : Int)
  | get_role (server_id : Int) (role_id : Int)
  | add_roles (server_id : Int) (user_id : Int) (role_id : Int) (reason : String)
  | remove_roles (server_id : Int) (user_id : Int) (role_id : Int) (reason : String)
  | create_text_channel (server_id : Int) (name : String)
      (category : Option Int) (topic : Option String) (reason : String)
  | get_channel (server_id : Int) (channel_id : Int)
  | channel_delete (channel_id : Int) (reason : String)
  | add_reaction (channel_id : Int) (message_id : Int) (emoji : String)
  | remove_reaction (channel_id : Int) (message_id : Int) (emoji : String)
  | message_edit (channel_id : Int) (message_id : Int) (content : String)
  deriving Repr, DecidableEq

/-- The outcome each external call has in a given run: the environment stands
for the chat platform (`discord_client` and the objects it returns). -/
structure Env where
  fetch_channel : Int → Except PyErr DChannel
  channel_send : Int → String → Except PyErr DMessage
  channel_history : Int → Int → Except PyErr (List DMessage)
  fetch_user : Int → Except PyErr DUser
  fetch_message : Int → Int → Except PyErr DMessage
  message_delete : Int → Int → String → Except PyErr Unit
  fetch_guild : Int → Except PyErr DGuild
  get_guild : Int → Option DGuild
  fetch_members : Int → Int → Except PyErr (List DMember)
  fetch_member : Int → Int → Except PyErr DMember
  get_role : Int → Int → Option DRole
  add_roles : Int → Int → Int → String → Except PyErr Unit
  remove_roles : Int → Int → Int → String → Except PyErr Unit
  create_text_channel : Int → String → Option Int → Option String → String →
    Except PyErr DChannel
  get_channel : Int → Int → Option DChannel
  channel_delete : Int → String → Except PyErr Unit
  add_reaction : Int → Int → String → Except PyErr Unit
  remove_reaction : Int → Int → String → Except PyErr Unit
  message_edit : Int → Int → String → Except PyErr Unit
  guilds : List DGuild

/-- A handler computation: reads the environment, produces a result or a
Python exception, and records the external calls attempted, in order. -/
def DiscordM (α : Type) : Type :=
  Env → Except PyErr α × List ExtAction

instance : Monad DiscordM where
  pure a := fun _ => (Except.ok a, [])
  bind m f := fun env =>
    match m env with
    | (Except.ok a, t) =>
      match f a env with
      | (r, t2) => (r, t ++ t2)
    | (Except.error e, t) => (Except.error e, t)

/-- Raise a Python exception. -/
def throwE {α : Type} (e : PyErr) : DiscordM α := fun _ => (Except.error e, [])

/-- Run a pure Python step (argument access, `int()` conversion, …) that may
raise but makes no external call. -/
def liftE {α : Type} (r : Except PyErr α) : DiscordM α := fun _ => (r, [])

/-- Python `try: m except Exception as e: h e`. -/
def catchE {α : Type} (m : DiscordM α) (h : PyErr → DiscordM α) : DiscordM α :=
  fun env =>
    match m env with
    | (Except.ok a, t) => (Except.ok a, t)
    | (Except.error e, t) =>
      match h e env with
      | (r, t2) => (r, t ++ t2)

/-! The external-call primitives, each recording its action. -/

def fetchChannelM (cid : Int) : DiscordM DChannel :=
  fun env => (env.fetch_channel cid, [.fetch_channel cid])

def channelSendM (cid : Int) (content : String) : DiscordM DMessage :=
  fun env => (env.channel_send cid content, [.channel_send cid content])

def channelHistoryM (cid limit : Int) : DiscordM (List DMessage) :=
  fun env => (env.channel_history cid limit, [.channel_history cid limit])

def fetchUserM (uid : Int) : DiscordM DUser :=
  fun env => (env.fetch_user uid, [.fetch_user uid])

def fetchMessageM (cid mid : Int) : DiscordM DMessage :=
  fun env => (env.fetch_message cid mid, [.fetch_message cid mid])

def messageDeleteM (cid mid : Int) (reason : String) : DiscordM Unit :=
  fun env => (env.message_delete cid mid reason, [.message_delete cid mid reason])

def fetchGuildM (sid : Int) : DiscordM DGuild :=
  fun env => (env.fetch_guild sid, [.fetch_guild sid])

def getGuildM (sid : Int) : DiscordM (Option DGuild) :=
  fun env => (Except.ok (env.get_guild sid), [.get_guild sid])

def fetchMembersM (sid limit : Int) : DiscordM (List DMember) :=
  fun env => (env.fetch_members sid limit, [.fetch_members sid limit])

def fetchMemberM (sid uid : Int) : DiscordM DMember :=
  fun env => (env.fetch_member sid uid, [.fetch_member sid uid])

def getRoleM (sid rid : Int) : DiscordM (Option DRole) :=
  fun env => (Except.ok (env.get_role sid rid), [.get_role sid rid])

def addRolesM (sid uid rid : Int) (reason : String) : DiscordM Unit :=
  fun env => (env.add_roles sid uid rid reason, [.add_roles sid uid rid reason])

def removeRolesM (sid uid rid : Int) (reason : String) : DiscordM Unit :=
  fun env => (env.remove_roles sid uid rid reason, [.remove_roles sid uid rid reason])

def createTextChannelM (sid : Int) (name : String) (category : Option Int)
    (topic : Option String) (reason : String) : DiscordM DChannel :=
  fun env => (env.create_text_channel sid name category topic reason,
    [.create_text_channel sid name category topic reason])

def getChannelM (sid cid : Int) : DiscordM (Option DChannel) :=
  fun env => (Except.ok (env.get_channel sid cid), [.get_channel sid cid])

def channelDeleteM (cid : Int) (reason : String) : DiscordM Unit :=
  fun env => (env.channel_delete cid reason, [.channel_delete cid reason])

def addReactionM (cid mid : Int) (emoji : String) : DiscordM Unit :=
  fun env => (env.add_reaction cid mid emoji, [.add_reaction cid mid emoji])

def removeReactionM (cid mid : Int) (emoji : String) : DiscordM Unit :=
  fun env => (env.remove_reaction cid mid emoji, [.remove_reaction cid mid emoji])

def messageEditM (cid mid : Int) (content : String) : DiscordM Unit :=
  fun env => (env.message_edit cid mid content, [.message_edit cid mid content])

def guildsM : DiscordM (List DGuild) :=
  fun env => (Except.ok env.guilds, [])

/-- `add_multiple_reactions`' inner loop (`server.py` lines 711-712). -/
def addReactionsLoop (cid mid : Int) : List String → DiscordM Unit
  | [] => pure ()
  | emoji :: rest => do
    addReactionM cid mid emoji
    addReactionsLoop cid mid rest

/-- `call_tool` (`server.py` lines 501-752): the string-keyed dispatch chain,
in source order, ending in `raise ValueError(f"Unknown tool: {name}")`.
Argument accesses, `int()` conversions and remote calls appear in the
source's evaluation order. -/
def call_tool (name : String) (arguments : Args) : DiscordM (List TextContent) :=
  -- lines 504-510
  if name = "send_message" then do
    let cid ← liftE (pyInt =<< dictGetItem arguments "channel_id")
    let channel ← fetchChannelM cid
    let content ← liftE (dictGetItem arguments "content")
    let message ← channelSendM channel.id (pyStr content)
    pure [{ text := "Message sent successfully. Message ID: " ++ toString message.id }]
  -- lines 512-546
  else if name = "read_messages" then do
    let cid ← liftE (pyInt =<< dictGetItem arguments "channel_id")
    let channel ← fetchChannelM cid
    let limit0 ← liftE (pyInt (dictGet arguments "limit" (.num 10)))
    let limit := min limit0 100
    -- line 515 reads `fetch_reaction_users` but nothing downstream uses it
    let msgs ← channelHistoryM channel.id limit
    let formatted := msgs.map (fun m =>
      m.author ++ " (" ++ m.created_at ++ "): " ++ m.content ++ "\n" ++
      "Reactions: " ++
      (if m.reactions.isEmpty then "No reactions"
       else String.intercalate ", "
         (m.reactions.map (fun r => r.emoji ++ "(" ++ toString r.count ++ ")"))))
    pure [{ text := "Retrieved " ++ toString msgs.length ++ " messages:\n\n" ++
      String.intercalate "\n" formatted }]
  -- lines 548-564
  else if name = "get_user_info" then do
    let uid ← liftE (pyInt =<< dictGetItem arguments "user_id")
    let user ← fetchUserM uid
    pure [{ text := "User information:\n" ++
      "Name: " ++ user.name ++ "#" ++ user.discriminator ++ "\n" ++
      "ID: " ++ toString user.id ++ "\n" ++
      "Bot: " ++ (if user.bot then "True" else "False") ++ "\n" ++
      "Created: " ++ user.created_at }]
  -- lines 566-591
  else if name = "moderate_message" then do
    let cid ← liftE (pyInt =<< dictGetItem arguments "channel_id")
    let channel ← fetchChannelM cid
    let mid ← liftE (pyInt =<< dictGetItem arguments "message_id")
    let message ← fetchMessageM channel.id mid
    let reason ← liftE (dictGetItem arguments "reason")
    messageDeleteM channel.id message.id (pyStr reason)
    let wantTimeout ← liftE (
      match arguments.lookup "timeout_minutes" with
      | some tm => pyGtZero tm
      | none => Except.ok false)
    if wantTimeout && message.author_is_member then
      -- line 576 evaluates `datetime.timedelta`, but line 5 imported only the
      -- `datetime` class from the module: the attribute lookup raises before
      -- any timeout call is made
      throwE (.attributeError "type object 'datetime.datetime' has no attribute 'timedelta'")
    else
      pure [{ text := "Message deleted successfully." }]
  -- lines 594-609
  else if name = "get_server_info" then do
    let sid ← liftE (pyInt =<< dictGetItem arguments "server_id")
    let guild ← fetchGuildM sid
    let info : List (String × String) :=
      [("name", guild.name), ("id", toString guild.id),
       ("owner_id", toString guild.owner_id),
       ("member_count", toString guild.member_count),
       ("created_at", guild.created_at),
       ("description", optStr guild.description),
       ("premium_tier", toString guild.premium_tier),
       ("explicit_content_filter", guild.explicit_content_filter)]
    pure [{ text := "Server Information:\n" ++
      String.intercalate "\n" (info.map (fun kv => kv.1 ++ ": " ++ kv.2)) }]
  -- lines 611-626: the one handler with its own try/except
  else if name = "get_channels" then
    catchE
      (do
        let sid ← liftE (pyInt =<< dictGetItem arguments "server_id")
        let guildOpt ← getGuildM sid
        match guildOpt with
        | some guild =>
          pure [{ text := "Channels in " ++ guild.name ++ ":\n" ++
            String.intercalate "\n" (guild.channels.map (fun c =>
              "#" ++ c.name ++ " (ID: " ++ toString c.id ++ ") - " ++ c.type)) }]
        | none => pure [{ text := "Guild not found" }])
      (fun e => pure [{ text := "Error: " ++ e.str }])
  -- lines 628-646
  else if name = "list_members" then do
    let sid ← liftE (pyInt =<< dictGetItem arguments "server_id")
    let guild ← fetchGuildM sid
    let limit0 ← liftE (pyInt (dictGet arguments "limit" (.num 100)))
    let limit := min limit0 1000
    let members ← fetchMembersM guild.id limit
    pure [{ text := "Server Members (" ++ toString members.length ++ "):\n" ++
      String.intercalate "\n" (members.map (fun m =>
        m.name ++ " (ID: " ++ toString m.id ++ ", Roles: " ++
        String.intercalate ", " ((m.roles.drop 1).map toString) ++ ")")) }]
  -- lines 649-658
  else if name = "add_role" then do
    let sid ← liftE (pyInt =<< dictGetItem arguments "server_id")
    let guild ← fetchGuildM sid
    let uid ← liftE (pyInt =<< dictGetItem arguments "user_id")
    let member ← fetchMemberM guild.id uid
    let rid ← liftE (pyInt =<< dictGetItem arguments "role_id")
    let roleOpt ← getRoleM guild.id rid
    match roleOpt with
    | some role => do
      addRolesM guild.id member.id role.id "Role added via MCP"
      pure [{ text := "Added role " ++ role.name ++ " to user " ++ member.name }]
    | none =>
      -- `guild.get_role` returned None; `member.add_roles(None)` fails inside
      -- the client library before any remote call
      throwE (.attributeError "'NoneType' object has no attribute 'id'")
  -- lines 660-669
  else if name = "remove_role" then do
    let sid ← liftE (pyInt =<< dictGetItem arguments "server_id")
    let guild ← fetchGuildM sid
    let uid ← liftE (pyInt =<< dictGetItem arguments "user_id")
    let member ← fetchMemberM guild.id uid
    let rid ← liftE (pyInt =<< dictGetItem arguments "role_id")
    let roleOpt ← getRoleM guild.id rid
    match roleOpt with
    | some role => do
      removeRolesM guild.id member.id role.id "Role removed via MCP"
      pure [{ text := "Removed role " ++ role.name ++ " from user " ++ member.name }]
    | none =>
      throwE (.attributeError "'NoneType' object has no attribute 'id'")
  -- lines 672-688
  else if name = "create_text_channel" then do
    let sid ← liftE (pyInt =<< dictGetItem arguments "server_id")
    let guild ← fetchGuildM sid
    let category ←
      if (arguments.lookup "category_id").isSome then do
        let catId ← liftE (pyInt =<< dictGetItem arguments "category_id")
        getChannelM guild.id catId
      else
        pure none
    let chanName ← liftE (dictGetItem arguments "name")
    let topic := (arguments.lookup "topic").map pyStr
    let channel ← createTextChannelM guild.id (pyStr chanName)
      (category.map (fun c => c.id)) topic "Channel created via MCP"
    pure [{ text := "Created text channel #" ++ channel.name ++
      " (ID: " ++ toString channel.id ++ ")" }]
  -- lines 690-696
  else if name = "delete_channel" then do
    let cid ← liftE (pyInt =<< dictGetItem arguments "channel_id")
    let channel ← fetchChannelM cid
    channelDeleteM channel.id (pyStr (dictGet arguments "reason"
      (.str "Channel deleted via MCP")))
    pure [{ text := "Deleted channel successfully" }]
  -- lines 699-706
  else if name = "add_reaction" then do
    let cid ← liftE (pyInt =<< dictGetItem arguments "channel_id")
    let channel ← fetchChannelM cid
    let mid ← liftE (pyInt =<< dictGetItem arguments "message_id")
    let message ← fetchMessageM channel.id mid
    let emoji ← liftE (dictGetItem arguments "emoji")
    addReactionM channel.id message.id (pyStr emoji)
    pure [{ text := "Added reaction " ++ pyStr emoji ++ " to message" }]
  -- lines 708-716
  else if name = "add_multiple_reactions" then do
    let cid ← liftE (pyInt =<< dictGetItem arguments "channel_id")
    let channel ← fetchChannelM cid
    let mid ← liftE (pyInt =<< dictGetItem arguments "message_id")
    let message ← fetchMessageM channel.id mid
    let emojis ← liftE (pyIterStrs =<< dictGetItem arguments "emojis")
    addReactionsLoop channel.id message.id emojis
    pure [{ text := "Added reactions: " ++ String.intercalate ", " emojis ++
      " to message" }]
  -- lines 718-725
  else if name = "remove_reaction" then do
    let cid ← liftE (pyInt =<< dictGetItem arguments "channel_id")
    let channel ← fetchChannelM cid
    let mid ← liftE (pyInt =<< dictGetItem arguments "message_id")
    let message ← fetchMessageM channel.id mid
    let emoji ← liftE (dictGetItem arguments "emoji")
    removeReactionM channel.id message.id (pyStr emoji)
    pure [{ text := "Removed reaction " ++ pyStr emoji ++ " from message" }]
  -- lines 727-741
  else if name = "list_servers" then do
    let gs ← guildsM
    pure [{ text := "Available Servers (" ++ toString gs.length ++ "):\n" ++
      String.intercalate "\n" (gs.map (fun g =>
        g.name ++ " (ID: " ++ toString g.id ++ ", Members: " ++
        toString g.member_count ++ ")")) }]
  -- lines 743-750
  else if name = "edit_message" then do
    let cid ← liftE (pyInt =<< dictGetItem arguments "channel_id")
    let channel ← fetchChannelM cid
    let mid ← liftE (pyInt =<< dictGetItem arguments "message_id")
    let message ← fetchMessageM channel.id mid
    let content ← liftE (dictGetItem arguments "content")
    messageEditM channel.id message.id (pyStr content)
    pure [{ text := "Message " ++ toString message.id ++ " in channel " ++
      toString channel.id ++ " edited successfully." }]
  -- line 752
  else
    throwE (.valueError ("Unknown tool: " ++ name))

/-- The names of the statically declared catalogue `list_tools` returns
(`server.py` lines 169-497) — exactly the names `call_tool`'s chain tests. -/
def toolNames : List String :=
  ["get_server_info", "get_channels", "list_members", "add_role", "remove_role",
   "create_text_channel", "delete_channel", "add_reaction",
   "add_multiple_reactions", "remove_reaction", "send_message", "read_messages",
   "get_user_info", "moderate_message", "list_servers", "edit_message"]

/-- The readiness decorator `require_discord_client` (`server.py` lines
161-167): the wrapper checks the global `discord_client` before invoking the
wrapped handler; `ready` models whether `on_ready` has set that global.
Decorators apply inside-out, so the protocol collaborator registers
`require_discord_client` applied to `call_tool`: the readiness check runs
before the tool name is even examined. -/
def require_discord_client (ready : Bool)
    (func : String → Args → DiscordM (List TextContent)) :
    String → Args → DiscordM (List TextContent) :=
  fun name args env =>
    if ready then func name args env
    else (Except.error (.runtimeError "Discord client not ready"), [])

/-- The structured response the protocol collaborator returns per request. -/
structure CallToolOutcome where
  content : List TextContent
  isError : Bool
  deriving Repr, DecidableEq

/-- Modelled from the spec: the `@app.call_tool()` decoration (`server.py`
line 499) hands the handler to the tool-invocation protocol collaborator,
whose implementation (the `mcp` package) is not part of this repository.
Per spec section 6 the collaborator "must produce exactly one structured
response per request", and per section 4.4 "the dispatcher never raises past
its boundary; it converts every external failure into a result payload": a
handler exception becomes a single textual error result flagged as an error. -/
def app_call_tool (handler : String → Args → DiscordM (List TextContent))
    (name : String) (args : Args) (env : Env) :
    CallToolOutcome × List ExtAction :=
  match handler name args env with
  | (Except.ok content, t) => ({ content := content, isError := false }, t)
  | (Except.error e, t) => ({ content := [{ text := e.str }], isError := true }, t)

/-- The full dispatch surface as registered at startup: the protocol
collaborator's wrapper around the readiness-gated `call_tool`. -/
def dispatch (ready : Bool) (name : String) (args : Args) (env : Env) :
    CallToolOutcome × List ExtAction :=
  app_call_tool (require_discord_client ready call_tool) name args env

/-! ## Lemmas about the Word-Guess Session -/

lemma mem_setAdd {l : List Char} {c x : Char} :
    x ∈ setAdd l c ↔ x ∈ l ∨ x = c := by
  unfold setAdd
  split
  · next h =>
    constructor
    · exact Or.inl
    · rintro (hx | rfl)
      · exact hx
      · exact h
  · simp

namespace HangmanGame

lemma guessFn_word (g : HangmanGame) (c : Char) :
    (g.guessFn c).1.word = g.word := by
  simp only [guessFn]
  split
  · rfl
  · split <;> rfl

lemma play_word (g : HangmanGame) (gs : List Char) :
    (g.play gs).word = g.word := by
  induction gs generalizing g with
  | nil => rfl
  | cons c cs ih =>
    show ((g.guessFn c).1.play cs).word = g.word
    rw [ih, guessFn_word]

lemma guessFn_correct_mem (g : HangmanGame) (c x : Char) :
    x ∈ (g.guessFn c).1.guesses_correct ↔
      x ∈ g.guesses_correct ∨ (c.toLower ∈ g.word.toList ∧ x = c.toLower) := by
  simp only [guessFn, String.toList]
  split
  · next h => simp [mem_setAdd, h]
  · next h => split <;> simp [h]

lemma guessFn_incorrect_mem (g : HangmanGame) (c x : Char) :
    x ∈ (g.guessFn c).1.guesses_incorrect ↔
      x ∈ g.guesses_incorrect ∨ (c.toLower ∉ g.word.toList ∧ x = c.toLower) := by
  simp only [guessFn, String.toList]
  split
  · next h => simp [h]
  · next h =>
    split
    · next h2 => simp [mem_setAdd, h]
    · next h2 =>
      rw [not_not] at h2
      constructor
      · exact Or.inl
      · rintro (hx | ⟨-, rfl⟩)
        · exact hx
        · exact h2

lemma guessFn_attempts (g : HangmanGame) (c : Char) :
    (g.guessFn c).1.attempts_left =
      g.attempts_left -
        (if c.toLower ∉ g.word.toList ∧ c.toLower ∉ g.guesses_incorrect
         then 1 else 0) := by
  simp only [guessFn, String.toList]
  split
  · next h => simp [h]
  · next h =>
    split
    · next h2 => simp [h, h2]
    · next h2 => simp [h, h2]

lemma guessFn_incorrect_len (g : HangmanGame) (c : Char) :
    ((g.guessFn c).1.guesses_incorrect).length =
      g.guesses_incorrect.length +
        (if c.toLower ∉ g.word.toList ∧ c.toLower ∉ g.guesses_incorrect
         then 1 else 0) := by
  simp only [guessFn, String.toList]
  split
  · next h => simp [h]
  · next h =>
    split
    · next h2 => simp [setAdd, h, h2]
    · next h2 => simp [h, h2]

lemma guessFn_incorrect_nodup (g : HangmanGame) (c : Char)
    (h : g.guesses_incorrect.Nodup) :
    (g.guessFn c).1.guesses_incorrect.Nodup := by
  simp only [guessFn]
  split
  · exact h
  · split
    · next h2 =>
      simp only [setAdd, if_neg h2]
      simp [List.nodup_append, h]
      intro hx
      exact h2 hx
    · exact h

lemma play_incorrect_nodup (g : HangmanGame) (gs : List Char)
    (h : g.guesses_incorrect.Nodup) :
    (g.play gs).guesses_incorrect.Nodup := by
  induction gs generalizing g with
  | nil => exact h
  | cons c cs ih =>
    show ((g.guessFn c).1.play cs).guesses_incorrect.Nodup
    exact ih _ (guessFn_incorrect_nodup g c h)

lemma play_attempts_eq (g : HangmanGame) (gs : List Char) :
    (g.play gs).attempts_left + ((g.play gs).guesses_incorrect.length : Int) =
      g.attempts_left + (g.guesses_incorrect.length : Int) := by
  induction gs generalizing g with
  | nil => rfl
  | cons c cs ih =>
    show ((g.guessFn c).1.play cs).attempts_left +
        ((((g.guessFn c).1.play cs).guesses_incorrect.length : Int)) =
      g.attempts_left + (g.guesses_incorrect.length : Int)
    rw [ih]
    rw [guessFn_attempts, guessFn_incorrect_len]
    by_cases hc : c.toLower ∉ g.word.toList ∧ c.toLower ∉ g.guesses_incorrect
    · simp only [if_pos hc]
      push_cast
      ring
    · simp only [if_neg hc]
      push_cast
      ring

lemma play_correct_mem (g : HangmanGame) (gs : List Char) (x : Char) :
    x ∈ (g.play gs).guesses_correct ↔
      x ∈ g.guesses_correct ∨
        ((∃ c ∈ gs, x = c.toLower) ∧ x ∈ g.word.toList) := by
  induction gs generalizing g with
  | nil => simp [play]
  | cons c cs ih =>
    show x ∈ ((g.guessFn c).1.play cs).guesses_correct ↔ _
    rw [ih, guessFn_correct_mem, guessFn_word]
    constructor
    · rintro ((hx | ⟨hw, rfl⟩) | ⟨⟨c', hc', rfl⟩, hw⟩)
      · exact Or.inl hx
      · exact Or.inr ⟨⟨c, by simp, rfl⟩, hw⟩
      · exact Or.inr ⟨⟨c', by simp [hc'], rfl⟩, hw⟩
    · rintro (hx | ⟨⟨c', hc', rfl⟩, hw⟩)
      · exact Or.inl (Or.inl hx)
      · rcases List.mem_cons.mp hc' with rfl | hc'
        · exact Or.inl (Or.inr ⟨hw, rfl⟩)
        · exact Or.inr ⟨⟨c', hc', rfl⟩, hw⟩

lemma is_won_iff_subset (g : HangmanGame) :
    g.is_won = true ↔ ∀ c ∈ g.word.toList, c ∈ g.guesses_correct := by
  simp [is_won, List.all_eq_true]

lemma play_incorrect_mem (g : HangmanGame) (gs : List Char) (x : Char) :
    x ∈ (g.play gs).guesses_incorrect ↔
      x ∈ g.guesses_incorrect ∨
        ((∃ c ∈ gs, x = c.toLower) ∧ x ∉ g.word.toList) := by
  induction gs generalizing g with
  | nil => simp [play]
  | cons c cs ih =>
    show x ∈ ((g.guessFn c).1.play cs).guesses_incorrect ↔ _
    rw [ih, guessFn_incorrect_mem, guessFn_word]
    constructor
    · rintro ((hx | ⟨hw, rfl⟩) | ⟨⟨c', hc', rfl⟩, hw⟩)
      · exact Or.inl hx
      · exact Or.inr ⟨⟨c, by simp, rfl⟩, hw⟩
      · exact Or.inr ⟨⟨c', by simp [hc'], rfl⟩, hw⟩
    · rintro (hx | ⟨⟨c', hc', rfl⟩, hw⟩)
      · exact Or.inl (Or.inl hx)
      · rcases List.mem_cons.mp hc' with rfl | hc'
        · exact Or.inl (Or.inr ⟨hw, rfl⟩)
        · exact Or.inr ⟨⟨c', hc', rfl⟩, hw⟩

end HangmanGame

/-! ## Claims about the Word-Guess Session (C3, C8, C9) -/

/-- C3 counterexample: with target word "wolf" (an element of the fixed word
list) the seven distinct incorrect guesses a, b, c, d, e, g, h drive the
remaining-attempts counter to −1: contrary to the claim, the counter as
implemented does go below zero. -/
theorem C3_counterexample :
    "wolf" ∈ HangmanGame.WORDS ∧
    (HangmanGame.play (HangmanGame.init "wolf")
        ['a', 'b', 'c', 'd', 'e', 'g', 'h']).attempts_left = -1 :=
  ⟨by decide, by decide⟩

/-- C3 (amended): the remaining-attempts counter starts at the art-stage
count minus one (6); a guess changes it by exactly 1 the first time a
distinct incorrect character is guessed and by 0 on a repeated incorrect or
a correct guess (hence it is monotonically non-increasing and equals 6 minus
the number of distinct incorrect characters recorded); and it stays
non-negative provided no guess is applied to a session already in the lost
state — which the owning registry guarantees by destroying terminal
sessions. (The unconditional "never goes below zero" of the claim is false,
see the counterexample.) -/
theorem C3_attempts_amended (w : String) (g : HangmanGame) (c : Char)
    (gs : List Char) :
    (HangmanGame.init w).attempts_left = 6 ∧
    (g.guessFn c).1.attempts_left =
      g.attempts_left -
        (if c.toLower ∉ g.word.toList ∧ c.toLower ∉ g.guesses_incorrect
         then 1 else 0) ∧
    (g.guessFn c).1.attempts_left ≤ g.attempts_left ∧
    (HangmanGame.play (HangmanGame.init w) gs).attempts_left =
      6 - ((HangmanGame.play (HangmanGame.init w) gs).guesses_incorrect.length : Int) ∧
    (HangmanGame.play (HangmanGame.init w) gs).guesses_incorrect.Nodup ∧
    (g.is_lost = false → 0 ≤ (g.guessFn c).1.attempts_left) := by
  refine ⟨rfl, HangmanGame.guessFn_attempts g c, ?_, ?_, ?_, ?_⟩
  · rw [HangmanGame.guessFn_attempts]
    split <;> omega
  · have h := HangmanGame.play_attempts_eq (HangmanGame.init w) gs
    have h6 : (HangmanGame.init w).attempts_left = 6 := rfl
    have h0 : (HangmanGame.init w).guesses_incorrect.length = 0 := rfl
    rw [h6, h0] at h
    push_cast at h
    omega
  · exact HangmanGame.play_incorrect_nodup _ _ (by simp [HangmanGame.init])
  · intro hl
    simp only [HangmanGame.is_lost, decide_eq_false_iff_not, not_le] at hl
    rw [HangmanGame.guessFn_attempts]
    split <;> omega

/-- C3 witness: from a non-lost state (one attempt left) a miss keeps the
counter non-negative. -/
theorem C3_witness :
    0 ≤ ((⟨"wolf", [], [], 1⟩ : HangmanGame).guessFn 'z').1.attempts_left :=
  (C3_attempts_amended "wolf" ⟨"wolf", [], [], 1⟩ 'z' []).2.2.2.2.2 rfl

/-- C8 (confirmed): for every target word and every guess sequence, `is_won`
holds iff every distinct character of the target appears among the
lower-cased guesses — it is never true before all distinct characters of the
target have been correctly guessed. -/
theorem C8_is_won_iff (w : String) (gs : List Char) :
    (HangmanGame.play (HangmanGame.init w) gs).is_won = true ↔
      ∀ ch ∈ (HangmanGame.init w).word.toList, ∃ c ∈ gs, c.toLower = ch := by
  rw [HangmanGame.is_won_iff_subset, HangmanGame.play_word]
  constructor
  · intro h ch hch
    have hm := (HangmanGame.play_correct_mem (HangmanGame.init w) gs ch).mp (h ch hch)
    rcases hm with hc | ⟨⟨c, hcgs, rfl⟩, -⟩
    · simp [HangmanGame.init] at hc
    · exact ⟨c, hcgs, rfl⟩
  · intro h ch hch
    rcases h ch hch with ⟨c, hcgs, hc⟩
    exact (HangmanGame.play_correct_mem _ gs ch).mpr (Or.inr ⟨⟨c, hcgs, hc.symm⟩, hch⟩)

/-- C8 witness: guessing w, o, l, f wins the game for target "wolf". -/
theorem C8_witness :
    (HangmanGame.play (HangmanGame.init "wolf") ['w', 'o', 'l', 'f']).is_won = true :=
  (C8_is_won_iff "wolf" ['w', 'o', 'l', 'f']).mpr (by decide)

/-- C9 (confirmed): the target word is never modified by guessing, the two
guess sets are disjoint, and every guessed character ends up recorded in
exactly one of them — even when guessed repeatedly. -/
theorem C9_sets_exclusive (w : String) (gs : List Char) :
    (HangmanGame.play (HangmanGame.init w) gs).word = (HangmanGame.init w).word ∧
    (∀ x, ¬(x ∈ (HangmanGame.play (HangmanGame.init w) gs).guesses_correct ∧
            x ∈ (HangmanGame.play (HangmanGame.init w) gs).guesses_incorrect)) ∧
    (∀ c ∈ gs,
      (c.toLower ∈ (HangmanGame.play (HangmanGame.init w) gs).guesses_correct ∧
       c.toLower ∉ (HangmanGame.play (HangmanGame.init w) gs).guesses_incorrect) ∨
      (c.toLower ∈ (HangmanGame.play (HangmanGame.init w) gs).guesses_incorrect ∧
       c.toLower ∉ (HangmanGame.play (HangmanGame.init w) gs).guesses_correct)) := by
  refine ⟨HangmanGame.play_word _ _, ?_, ?_⟩
  · rintro x ⟨hc, hi⟩
    have h1 := (HangmanGame.play_correct_mem (HangmanGame.init w) gs x).mp hc
    have h2 := (HangmanGame.play_incorrect_mem (HangmanGame.init w) gs x).mp hi
    simp only [HangmanGame.init, List.not_mem_nil, false_or] at h1 h2
    exact h2.2 h1.2
  · intro c hc
    by_cases hw : c.toLower ∈ (HangmanGame.init w).word.toList
    · left
      constructor
      · exact (HangmanGame.play_correct_mem _ _ _).mpr (Or.inr ⟨⟨c, hc, rfl⟩, hw⟩)
      · intro hi
        have h2 := (HangmanGame.play_incorrect_mem _ _ _).mp hi
        simp only [HangmanGame.init, List.not_mem_nil, false_or] at h2
        exact h2.2 hw
    · right
      constructor
      · exact (HangmanGame.play_incorrect_mem _ _ _).mpr (Or.inr ⟨⟨c, hc, rfl⟩, hw⟩)
      · intro hcc
        have h1 := (HangmanGame.play_correct_mem _ _ _).mp hcc
        simp only [HangmanGame.init, List.not_mem_nil, false_or] at h1
        exact hw h1.2

/-- C9 witness: a single incorrect guess `z` against "wolf" lands in exactly
one guess set. -/
theorem C9_witness :
    ('z'.toLower ∈ (HangmanGame.play (HangmanGame.init "wolf") ['z']).guesses_correct ∧
     'z'.toLower ∉ (HangmanGame.play (HangmanGame.init "wolf") ['z']).guesses_incorrect) ∨
    ('z'.toLower ∈ (HangmanGame.play (HangmanGame.init "wolf") ['z']).guesses_incorrect ∧
     'z'.toLower ∉ (HangmanGame.play (HangmanGame.init "wolf") ['z']).guesses_correct) :=
  (C9_sets_exclusive "wolf" ['z']).2.2 'z' (by decide)

/-! ## Lemmas about the Session Registry's dict semantics -/

lemma keys_map_replace {α : Type} (m : List (String × α)) (k : String) (v : α) :
    ((m.map fun p => if p.1 = k then (k, v) else p).map Prod.fst) =
      m.map Prod.fst := by
  induction m with
  | nil => rfl
  | cons p ps ih =>
    simp only [List.map_cons, ih]
    by_cases h : p.1 = k
    · simp [h]
    · simp [h]

lemma lookup_isSome_of_mem_keys {α : Type} (m : List (String × α)) (k : String)
    (h : k ∈ m.map Prod.fst) : (m.lookup k).isSome = true := by
  induction m with
  | nil => simp at h
  | cons p ps ih =>
    rw [List.map_cons, List.mem_cons] at h
    by_cases hk : k = p.1
    · have hb : (k == p.1) = true := by simp [hk]
      simp [List.lookup, hb]
    · have hb : (k == p.1) = false := by simp [hk]
      simp only [List.lookup, hb]
      rcases h with h | h
      · exact absurd h hk
      · exact ih h

lemma nodupKeys_dictSet {α : Type} {m : List (String × α)} (k : String) (v : α)
    (h : NodupKeys m) : NodupKeys (dictSet m k v) := by
  unfold NodupKeys dictSet at *
  split
  · next hp => rw [keys_map_replace]; exact h
  · next hp =>
    rw [List.map_append]
    have hk : k ∉ m.map Prod.fst := fun hmem =>
      hp (lookup_isSome_of_mem_keys m k hmem)
    simp [List.nodup_append, h, hk]

lemma nodupKeys_dictDel {α : Type} {m : List (String × α)} (k : String)
    (h : NodupKeys m) : NodupKeys (dictDel m k) := by
  unfold NodupKeys dictDel at *
  exact ((List.filter_sublist m).map Prod.fst).nodup h

lemma lookup_dictDel {α : Type} (m : List (String × α)) (k : String) :
    (dictDel m k).lookup k = none := by
  induction m with
  | nil => rfl
  | cons p ps ih =>
    by_cases h : p.1 = k
    · have hstep : dictDel (p :: ps) k = dictDel ps k := by
        simp [dictDel, List.filter, h]
      rw [hstep]
      exact ih
    · have hstep : dictDel (p :: ps) k = p :: dictDel ps k := by
        simp [dictDel, List.filter, h]
      rw [hstep]
      have hb : (k == p.1) = false := by simp [Ne.symm h]
      simp only [List.lookup, hb]
      exact ih

/-! ## Lemmas about the Event Router -/

lemma process_commands_noncommand (st : BState) (msg : InMessage) (fresh : Fresh)
    (h : pyStartswith msg.content command_prefix = false) :
    process_commands st msg fresh = (st, []) := by
  unfold process_commands
  simp [h]

lemma nodupKeys_hangman (st : BState) (ch : String) (args : List String)
    (fresh : Fresh) (h : NodupKeys st.active_hangman_games) :
    NodupKeys (hangman st ch args fresh).1.active_hangman_games := by
  simp only [hangman]
  split
  · split
    · exact h
    · exact nodupKeys_dictSet _ _ h
  · split
    · split
      · exact nodupKeys_dictDel _ h
      · exact h
    · exact h

lemma nodupKeys_process_commands (st : BState) (msg : InMessage) (fresh : Fresh)
    (h : NodupKeys st.active_hangman_games) :
    NodupKeys (process_commands st msg fresh).1.active_hangman_games := by
  simp only [process_commands]
  split
  · split
    · split
      · exact nodupKeys_hangman _ _ _ _ h
      · exact h
    · exact h
  · exact h

lemma nodupKeys_on_message (target : String) (st : BState) (msg : InMessage)
    (fresh : Fresh) (h : NodupKeys st.active_hangman_games) :
    NodupKeys (on_message target st msg fresh).1.active_hangman_games := by
  simp only [on_message]
  split
  · exact h
  · have h1 := nodupKeys_process_commands st msg fresh h
    rcases hp : process_commands st msg fresh with ⟨st1, eff1⟩
    rw [hp] at h1
    simp only at h1 ⊢
    split
    · -- the guess branch
      split
      · -- an entry was found
        dsimp only
        split
        · -- the guess guard held
          dsimp only
          split
          · exact nodupKeys_dictDel _ (nodupKeys_dictSet _ _ h1)
          · exact nodupKeys_dictSet _ _ h1
        · exact h1
      · exact h1
    · -- the general branch
      split
      · split
        · exact h1
        · exact h1
      · exact h1

lemma on_message_guess_applied
    (target : String) (st : BState) (msg : InMessage) (fresh : Fresh)
    (game : HangmanGame) (gmid : Nat)
    (hbot : msg.author_bot = false)
    (hch : msg.channel_id = target)
    (hpre : pyStartswith msg.content command_prefix = false)
    (hlook : st.active_hangman_games.lookup msg.channel_id = some (game, gmid))
    (hlen : (pyLower (pyStrip msg.content)).length = 1)
    (halpha : pyIsAlpha (pyLower (pyStrip msg.content)) = true) :
    on_message target st msg fresh =
      ({ st with active_hangman_games :=
          (if ((game.guessFn ((pyLower (pyStrip msg.content)).toList.headD ' ')).1.is_won ||
               (game.guessFn ((pyLower (pyStrip msg.content)).toList.headD ' ')).1.is_lost) = true
           then dictDel (dictSet st.active_hangman_games msg.channel_id
              ((game.guessFn ((pyLower (pyStrip msg.content)).toList.headD ' ')).1, gmid))
              msg.channel_id
           else dictSet st.active_hangman_games msg.channel_id
              ((game.guessFn ((pyLower (pyStrip msg.content)).toList.headD ' ')).1, gmid)) },
       [Effect.messageEdit gmid
          ((game.guessFn ((pyLower (pyStrip msg.content)).toList.headD ' ')).1).get_game_state_message,
        Effect.messageDelete msg.id]) := by
  unfold on_message
  rw [process_commands_noncommand st msg fresh hpre]
  rw [hch] at hlook
  simp [hbot, hch, hlook, hpre, hlen, halpha]

lemma on_message_guess_skipped
    (target : String) (st : BState) (msg : InMessage) (fresh : Fresh)
    (game : HangmanGame) (gmid : Nat)
    (hbot : msg.author_bot = false)
    (hch : msg.channel_id = target)
    (hpre : pyStartswith msg.content command_prefix = false)
    (hlook : st.active_hangman_games.lookup msg.channel_id = some (game, gmid))
    (hguard : (decide ((pyLower (pyStrip msg.content)).length = 1) &&
        pyIsAlpha (pyLower (pyStrip msg.content))) = false) :
    on_message target st msg fresh = (st, [Effect.messageDelete msg.id]) := by
  unfold on_message
  rw [process_commands_noncommand st msg fresh hpre]
  rw [hch] at hlook
  simp [hbot, hch, hlook, hpre, hguard]

lemma on_message_general
    (target : String) (st : BState) (msg : InMessage) (fresh : Fresh)
    (hbot : msg.author_bot = false)
    (hch : msg.channel_id = target)
    (hpre : pyStartswith msg.content command_prefix = false)
    (hsession : st.active_hangman_games.lookup msg.channel_id = none) :
    on_message target st msg fresh =
      (st, Effect.channelSend msg.channel_id THINKING fresh.msgId ::
        (match st.websocket_client with
         | some _ => [Effect.wsSend (forward_payload msg fresh.msgId)]
         | none => [Effect.messageDelete fresh.msgId])) := by
  unfold on_message
  rw [process_commands_noncommand st msg fresh hpre]
  rw [hch] at hsession
  cases hws : st.websocket_client with
  | none => simp [hbot, hch, hsession, hpre, hws]
  | some conn => simp [hbot, hch, hsession, hpre, hws]

/-! ## Claims about the Event Router, Registry and Relay -/

/-- C1 (confirmed): with the upstream chat client not yet ready, the gated
`call_tool` fails fast with the readiness error before the tool name is
dispatched — for every tool name and argument bag the external-action trace
is empty (no external action is attempted), and the full dispatch surface
returns the readiness error result, likewise with no external action. -/
theorem C1_call_tool_not_ready (name : String) (args : Args) (env : Env) :
    require_discord_client false call_tool name args env =
      (Except.error (PyErr.runtimeError "Discord client not ready"), []) ∧
    dispatch false name args env =
      ({ content := [{ text := "Discord client not ready" }], isError := true }, []) :=
  ⟨rfl, rfl⟩

/-- C2 (confirmed): the Session Registry never holds two entries for the same
room id (every router step preserves key uniqueness), and when an applied
guess leaves the session won or lost, the registry entry for that room is
absent by the time the handler returns. -/
theorem C2_registry_unique_and_terminal_removed
    (target : String) (st : BState) (msg : InMessage) (fresh : Fresh)
    (game : HangmanGame) (gmid : Nat)
    (hbot : msg.author_bot = false)
    (hch : msg.channel_id = target)
    (hpre : pyStartswith msg.content command_prefix = false)
    (hlook : st.active_hangman_games.lookup msg.channel_id = some (game, gmid))
    (hlen : (pyLower (pyStrip msg.content)).length = 1)
    (halpha : pyIsAlpha (pyLower (pyStrip msg.content)) = true)
    (hterm : ((game.guessFn ((pyLower (pyStrip msg.content)).toList.headD ' ')).1.is_won ||
        (game.guessFn ((pyLower (pyStrip msg.content)).toList.headD ' ')).1.is_lost) = true) :
    (∀ (t' : String) (st' : BState) (m' : InMessage) (f' : Fresh),
        NodupKeys st'.active_hangman_games →
        NodupKeys (on_message t' st' m' f').1.active_hangman_games) ∧
    (on_message target st msg fresh).1.active_hangman_games.lookup
      msg.channel_id = none := by
  constructor
  · intro t' st' m' f' hn
    exact nodupKeys_on_message t' st' m' f' hn
  · rw [on_message_guess_applied target st msg fresh game gmid
      hbot hch hpre hlook hlen halpha]
    simp only [hterm, if_true]
    exact lookup_dictDel _ _

/-- C2 witness: in room 42 a session on "wolf" with w, o, l already guessed
receives the winning guess f; the entry is gone when the handler returns. -/
theorem C2_witness :
    (on_message "42"
      { websocket_client := none
        active_hangman_games :=
          [("42", ({ word := "wolf", guesses_correct := ['w', 'o', 'l']
                     guesses_incorrect := [], attempts_left := 6 }, 1))] }
      { id := 99, author_bot := false, author_name := "bob"
        author_display_name := "Bob", channel_id := "42", content := "f" }
      { word := "zebra", msgId := 100 }).1.active_hangman_games.lookup "42" = none :=
  (C2_registry_unique_and_terminal_removed "42"
    { websocket_client := none
      active_hangman_games :=
        [("42", ({ word := "wolf", guesses_correct := ['w', 'o', 'l']
                   guesses_incorrect := [], attempts_left := 6 }, 1))] }
    { id := 99, author_bot := false, author_name := "bob"
      author_display_name := "Bob", channel_id := "42", content := "f" }
    { word := "zebra", msgId := 100 }
    { word := "wolf", guesses_correct := ['w', 'o', 'l']
      guesses_incorrect := [], attempts_left := 6 } 1
    rfl rfl (by decide) rfl (by decide) (by decide) (by decide)).2

/-- C4 counterexample: room 42 has an active session and the relay is live;
the inbound text "hello" is neither a command nor a single alphabetic
character, yet the router consumes it in the session branch: no placeholder
is published, nothing is forwarded, and the originating message is deleted —
contradicting the claim that such an event is treated as a general message
and its message not deleted. -/
theorem C4_counterexample :
    on_message "42"
      { websocket_client := some 7
        active_hangman_games := [("42", (HangmanGame.init "wolf", 1))] }
      { id := 99, author_bot := false, author_name := "alice"
        author_display_name := "Alice", channel_id := "42", content := "hello" }
      { word := "zebra", msgId := 100 } =
    ({ websocket_client := some 7
       active_hangman_games := [("42", (HangmanGame.init "wolf", 1))] },
     [Effect.messageDelete 99]) := by
  rfl

/-- C4 (amended): when a session is active for the room, every non-command
event is consumed by the session branch — one that is not a single alphabetic
character applies no guess, publishes no placeholder, forwards nothing, and
its originating message is still deleted. The general-message path
(placeholder, then forward when the relay is live) runs exactly when no
session is active for the room. -/
theorem C4_router_amended
    (target : String) (st : BState) (msg : InMessage) (fresh : Fresh)
    (hbot : msg.author_bot = false)
    (hch : msg.channel_id = target)
    (hpre : pyStartswith msg.content command_prefix = false) :
    (∀ (game : HangmanGame) (gmid : Nat),
      st.active_hangman_games.lookup msg.channel_id = some (game, gmid) →
      ¬((pyLower (pyStrip msg.content)).length = 1 ∧
          pyIsAlpha (pyLower (pyStrip msg.content)) = true) →
      on_message target st msg fresh = (st, [Effect.messageDelete msg.id])) ∧
    (st.active_hangman_games.lookup msg.channel_id = none →
      (st.websocket_client = none →
        on_message target st msg fresh =
          (st, [Effect.channelSend msg.channel_id THINKING fresh.msgId,
                Effect.messageDelete fresh.msgId])) ∧
      (∀ conn : Nat, st.websocket_client = some conn →
        on_message target st msg fresh =
          (st, [Effect.channelSend msg.channel_id THINKING fresh.msgId,
                Effect.wsSend (forward_payload msg fresh.msgId)]))) := by
  constructor
  · intro game gmid hlook hng
    apply on_message_guess_skipped target st msg fresh game gmid hbot hch hpre hlook
    cases h : (decide ((pyLower (pyStrip msg.content)).length = 1) &&
        pyIsAlpha (pyLower (pyStrip msg.content))) with
    | false => rfl
    | true =>
      exfalso
      rw [Bool.and_eq_true] at h
      exact hng ⟨of_decide_eq_true h.1, h.2⟩
  · intro hsession
    constructor
    · intro hws
      rw [on_message_general target st msg fresh hbot hch hpre hsession, hws]
    · intro conn hws
      rw [on_message_general target st msg fresh hbot hch hpre hsession, hws]

/-- C4 witness: with a session active in room 42 the multi-character message
"hi there" is deleted and the state is unchanged. -/
theorem C4_witness :
    on_message "42"
      { websocket_client := some 7
        active_hangman_games := [("42", (HangmanGame.init "wolf", 1))] }
      { id := 99, author_bot := false, author_name := "alice"
        author_display_name := "Alice", channel_id := "42", content := "hi there" }
      { word := "zebra", msgId := 100 } =
    ({ websocket_client := some 7
       active_hangman_games := [("42", (HangmanGame.init "wolf", 1))] },
     [Effect.messageDelete 99]) :=
  (C4_router_amended "42"
    { websocket_client := some 7
      active_hangman_games := [("42", (HangmanGame.init "wolf", 1))] }
    { id := 99, author_bot := false, author_name := "alice"
      author_display_name := "Alice", channel_id := "42", content := "hi there" }
    { word := "zebra", msgId := 100 }
    rfl rfl (by decide)).1 (HangmanGame.init "wolf") 1 rfl (by decide)

/-- C6 (confirmed): with no live relay connection, `send` signals NotConnected
to its caller as a value — no exception — and the general-message path then
deletes the placeholder it just published (nothing forwarded, no orphaned
placeholder). -/
theorem C6_relay_not_connected
    (target : String) (st : BState) (msg : InMessage) (fresh : Fresh) (p : WsPayload)
    (hbot : msg.author_bot = false)
    (hch : msg.channel_id = target)
    (hpre : pyStartswith msg.content command_prefix = false)
    (hsession : st.active_hangman_games.lookup msg.channel_id = none)
    (hws : st.websocket_client = none) :
    relay_send st.websocket_client p = Except.error RelayError.notConnected ∧
    on_message target st msg fresh =
      (st, [Effect.channelSend msg.channel_id THINKING fresh.msgId,
            Effect.messageDelete fresh.msgId]) := by
  constructor
  · rw [hws]; rfl
  · rw [on_message_general target st msg fresh hbot hch hpre hsession, hws]

/-- C6 witness: concrete instance — relay disconnected, empty registry, a
plain message in the designated room: the placeholder is published and then
deleted, and `send` observes NotConnected. -/
theorem C6_witness :
    relay_send (none : Option Nat) (forward_payload
        { id := 5, author_bot := false, author_name := "eve"
          author_display_name := "Eve", channel_id := "42", content := "hey" } 100) =
      Except.error RelayError.notConnected ∧
    on_message "42" { websocket_client := none, active_hangman_games := [] }
      { id := 5, author_bot := false, author_name := "eve"
        author_display_name := "Eve", channel_id := "42", content := "hey" }
      { word := "zebra", msgId := 100 } =
    ({ websocket_client := none, active_hangman_games := [] },
     [Effect.channelSend "42" THINKING 100, Effect.messageDelete 100]) :=
  C6_relay_not_connected "42"
    { websocket_client := none, active_hangman_games := [] }
    { id := 5, author_bot := false, author_name := "eve"
      author_display_name := "Eve", channel_id := "42", content := "hey" }
    { word := "zebra", msgId := 100 }
    (forward_payload
      { id := 5, author_bot := false, author_name := "eve"
        author_display_name := "Eve", channel_id := "42", content := "hey" } 100)
    rfl rfl (by decide) rfl rfl

/-- C7 counterexample: after accept(1), accept(2), disconnect(1) the stored
handle is None although connection 2 — the most recently accepted connection,
never disconnected — is still live: a stale handler's disconnect clears the
replacement's handle, so the handle does not always refer to the most
recently accepted connection that has not yet disconnected. -/
theorem C7_counterexample :
    relayRun [RelayEvent.accept 1, RelayEvent.accept 2, RelayEvent.disconnect 1] = none ∧
    liveLatest [RelayEvent.accept 1, RelayEvent.accept 2, RelayEvent.disconnect 1] = some 2 ∧
    relayRun [RelayEvent.accept 1, RelayEvent.accept 2, RelayEvent.disconnect 1] ≠
      liveLatest [RelayEvent.accept 1, RelayEvent.accept 2, RelayEvent.disconnect 1] :=
  ⟨rfl, rfl, by decide⟩

/-- C7 (amended): the handle is a single nullable field, so at most one live
connection handle exists at a time; accepting a connection replaces the
handle (last-writer-wins); and ANY handler's disconnect — even that of an
already-replaced, stale connection — clears the handle, after which every
send observes NotConnected until the next accept. (The claim's "the handle
always refers to the most recently accepted connection that has not yet
disconnected" is false, see the counterexample.) -/
theorem C7_relay_amended (evs : List RelayEvent) (c : Nat) (p : WsPayload) :
    relayRun (evs ++ [RelayEvent.accept c]) = some c ∧
    relayRun (evs ++ [RelayEvent.disconnect c]) = none ∧
    relay_send (relayRun (evs ++ [RelayEvent.disconnect c])) p =
      Except.error RelayError.notConnected := by
  refine ⟨?_, ?_, ?_⟩ <;>
    simp [relayRun, List.foldl_append, relayStep, relay_send]

/-- C10 (confirmed): the game command with no sub-command behaves identically
to an explicit "start": with no active session it creates one and publishes
the initial status; with an active session it reports a game in progress and
leaves the registry unchanged. -/
theorem C10_hangman_default_start (st : BState) (channel_id : String)
    (fresh : Fresh) :
    hangman st channel_id [] fresh = hangman st channel_id ["start"] fresh ∧
    ((st.active_hangman_games.lookup channel_id).isSome = true →
      hangman st channel_id [] fresh =
        (st, [Effect.channelSend channel_id
          "A game is already in progress in this channel! Use `!hangman stop` to end it."
          fresh.msgId])) ∧
    (st.active_hangman_games.lookup channel_id = none →
      hangman st channel_id [] fresh =
        ({ st with active_hangman_games :=
            (dictSet st.active_hangman_games channel_id
              (HangmanGame.init fresh.word, fresh.msgId)) },
         [Effect.channelSend channel_id
           (HangmanGame.init fresh.word).get_game_state_message fresh.msgId])) := by
  refine ⟨rfl, ?_, ?_⟩
  · intro h
    unfold hangman
    simp [h]
  · intro h
    unfold hangman
    simp [h]

/-! ## The Tool Dispatcher's boundary (C5) -/

lemma call_tool_unknown (name : String) (args : Args) (env : Env)
    (h : name ∉ toolNames) :
    call_tool name args env =
      (Except.error (PyErr.valueError ("Unknown tool: " ++ name)), []) := by
  simp only [toolNames, List.mem_cons, List.not_mem_nil, or_false, not_or] at h
  obtain ⟨h1, h2, h3, h4, h5, h6, h7, h8, h9, h10, h11, h12, h13, h14, h15, h16⟩ := h
  unfold call_tool
  rw [if_neg h11, if_neg h12, if_neg h13, if_neg h14, if_neg h1, if_neg h2,
    if_neg h3, if_neg h4, if_neg h5, if_neg h6, if_neg h7, if_neg h8,
    if_neg h9, if_neg h10, if_neg h15, if_neg h16]
  rfl

/-- C5 (confirmed): with a ready upstream client the dispatch surface never
raises past its boundary — an unknown tool name yields the "Unknown tool"
error result (no external action attempted), a handler exception of any kind
is converted into a single textual error result preserving the external
actions already attempted, and a handler success is returned unchanged as a
non-error result. (The conversion layer, the `@app.call_tool()` decoration,
is modelled from the spec: its implementation lives in the `mcp` package,
outside this repository.) -/
theorem C5_dispatcher_boundary (name : String) (args : Args) (env : Env) :
    (name ∉ toolNames →
      dispatch true name args env =
        ({ content := [{ text := "Unknown tool: " ++ name }], isError := true }, [])) ∧
    (∀ (e : PyErr) (tr : List ExtAction),
      require_discord_client true call_tool name args env = (Except.error e, tr) →
      dispatch true name args env =
        ({ content := [{ text := e.str }], isError := true }, tr)) ∧
    (∀ (r : List TextContent) (tr : List ExtAction),
      require_discord_client true call_tool name args env = (Except.ok r, tr) →
      dispatch true name args env = ({ content := r, isError := false }, tr)) := by
  refine ⟨?_, ?_, ?_⟩
  · intro h
    have hg : require_discord_client true call_tool name args env =
        call_tool name args env := rfl
    unfold dispatch app_call_tool
    rw [hg, call_tool_unknown name args env h]
    rfl
  · intro e tr h
    unfold dispatch app_call_tool
    rw [h]
  · intro r tr h
    unfold dispatch app_call_tool
    rw [h]

/-- The environment the C5 witness runs against: every remote call fails the
way the chat platform typically fails (not-found / forbidden). -/
def env0 : Env :=
  { fetch_channel := fun _ => Except.error (.discordNotFound "Unknown Channel")
    channel_send := fun _ _ => Except.error (.discordForbidden "Missing Permissions")
    channel_history := fun _ _ => Except.ok []
    fetch_user := fun _ => Except.error (.discordNotFound "Unknown User")
    fetch_message := fun _ _ => Except.error (.discordNotFound "Unknown Message")
    message_delete := fun _ _ _ => Except.ok ()
    fetch_guild := fun _ => Except.error (.discordNotFound "Unknown Guild")
    get_guild := fun _ => none
    fetch_members := fun _ _ => Except.ok []
    fetch_member := fun _ _ => Except.error (.discordNotFound "Unknown Member")
    get_role := fun _ _ => none
    add_roles := fun _ _ _ _ => Except.ok ()
    remove_roles := fun _ _ _ _ => Except.ok ()
    create_text_channel := fun _ _ _ _ _ =>
      Except.error (.discordForbidden "Missing Permissions")
    get_channel := fun _ _ => none
    channel_delete := fun _ _ => Except.ok ()
    add_reaction := fun _ _ _ => Except.ok ()
    remove_reaction := fun _ _ _ => Except.ok ()
    message_edit := fun _ _ _ => Except.ok ()
    guilds := [] }

/-- C5 witness: the unknown name "frobnicate" yields the UnknownTool error
result with no external action, and send_message — whose channel fetch fails
— yields a textual error result recording the one attempted action. -/
theorem C5_witness :
    dispatch true "frobnicate" [] env0 =
      ({ content := [{ text := "Unknown tool: frobnicate" }], isError := true }, []) ∧
    dispatch true "send_message" [("channel_id", JVal.num 1)] env0 =
      ({ content := [{ text := "Unknown Channel" }], isError := true },
       [ExtAction.fetch_channel 1]) :=
  ⟨(C5_dispatcher_boundary "frobnicate" [] env0).1 (by decide),
   (C5_dispatcher_boundary "send_message" [("channel_id", JVal.num 1)] env0).2.1
     (PyErr.discordNotFound "Unknown Channel") [ExtAction.fetch_channel 1] rfl⟩

/-- C10 witness: with an empty registry the no-argument invocation creates
the session and publishes the initial status. -/
theorem C10_witness :
    hangman { websocket_client := none, active_hangman_games := [] } "42" []
      { word := "wolf", msgId := 5 } =
    ({ websocket_client := none
       active_hangman_games := dictSet [] "42" (HangmanGame.init "wolf", 5) },
     [Effect.channelSend "42" (HangmanGame.init "wolf").get_game_state_message 5]) :=
  (C10_hangman_default_start
    { websocket_client := none, active_hangman_games := [] } "42"
    { word := "wolf", msgId := 5 }).2.2 rfl

end DiscordBot
